import Mathlib

/-!
Verification of the `breaker/util.py` persistence and access-control helper
module of the Circuit Breakers Team Hub application.

The module is shallowly embedded: Python JSON values become the inductive
type `JSON`; the filesystem becomes a map from paths to an abstract
`FileContent` (missing / empty / invalid JSON / stored JSON value with the
indentation it was written with); transient I/O faults are an explicit
boolean parameter deciding whether the `try` body raises; Streamlit session
state becomes an explicit `Session` record; `st.warning` and `print` calls
become returned lists of message strings; code that can raise an uncaught
exception returns `Except`.
-/

set_option autoImplicit false

namespace CircuitUtil

/-- A JSON value as produced by Python's `json.load`.  Numbers are abstracted
to `Int`: no function in the module inspects numeric contents, it only
stores and retrieves values, so any token type with decidable equality is
faithful. Objects are association lists in insertion order (Python dicts
produced by `json.load` have distinct keys and preserve order). -/
inductive JSON where
  | null
  | bool (b : Bool)
  | num (n : Int)
  | str (s : String)
  | arr (xs : List JSON)
  | obj (kvs : List (String × JSON))

/-- Whether a JSON value is an object (a Python `dict`). -/
def JSON.isObj : JSON → Bool
  | .obj _ => true
  | _ => false

/-- Abstract content of one file on disk, at the granularity the module
observes it: `os.path.exists` false (`missing`); exists with size 0
(`empty`); exists, non-empty, but `json.load` raises (`invalid`); or holds
the serialization of a JSON value, remembering the `indent` it was written
with (`read` ignores the indentation: any valid JSON is accepted). -/
inductive FileContent where
  | missing
  | empty
  | invalid
  | stored (v : JSON) (indent : Option Nat)

/-- The filesystem: content of every path. -/
def FS : Type := String → FileContent

/-- Overwrite the content at one path. -/
def FS.update (fs : FS) (p : String) (c : FileContent) : FS :=
  fun q => if q = p then c else fs q

/-- File path constants from the top of `util.py`. -/
def USERS_FILE : String := "data/users.json"

def TASKS_FILE : String := "data/tasks.json"

def BUILD_LOGS_FILE : String := "data/build_logs.json"

def RESOURCES_FILE : String := "data/resources.json"

def MEDIA_ITEMS_FILE : String := "data/media_items.json"

def MESSAGES_FILE : String := "data/messages.json"

def EVENTS_FILE : String := "data/events.json"

def SPONSORS_FILE : String := "data/sponsors.json"

def SETTINGS_FILE : String := "data/settings.json"

/-- Modelled from the Python standard library (not part of this
repository): `s.endswith(suffix)` — the suffix relation on the character
lists. -/
def pyEndsWith (s suffix : String) : Bool :=
  List.isSuffixOf suffix.toList s.toList

/-- The default substituted by `read_json_file` when its `default` argument
is Python `None`: `[] if not file_path.endswith(("settings.json",
"users.json")) else \x7b\x7d`. -/
def effectiveDefault (default : Option JSON) (file_path : String) : JSON :=
  match default with
  | some v => v
  | none =>
    if pyEndsWith file_path "settings.json" || pyEndsWith file_path "users.json" then
      JSON.obj []
    else
      JSON.arr []

/-- `read_json_file(file_path, default=None)`.  `fault` is true when the
`try` body raises an I/O error while opening or reading an existing
non-empty file.  Returns the resulting value together with the lines the
function printed to standard output. -/
def read_json_file (fs : FS) (file_path : String) (default : Option JSON)
    (fault : Bool) : JSON × List String :=
  let d := effectiveDefault default file_path
  match fs file_path with
  | .missing => (d, [])
  | .empty => (d, [])
  | .invalid => (d, ["Error reading " ++ file_path])
  | .stored v _ =>
    if fault then (d, ["Error reading " ++ file_path])
    else (v, [])

/-- `write_json_file(file_path, data)`: `json.dump(data, f, indent=4)`
overwrites the whole file.  `fault` is true when the `try` body raises.
Returns the new filesystem, the success boolean, and the printed lines. -/
def write_json_file (fs : FS) (file_path : String) (data : JSON)
    (fault : Bool) : FS × Bool × List String :=
  if fault then
    (fs, false, ["Error writing to " ++ file_path])
  else
    (fs.update file_path (.stored data (some 4)), true, [])

/-- `load_tasks()`. -/
def load_tasks (fs : FS) (fault : Bool) : JSON × List String :=
  read_json_file fs TASKS_FILE none fault

/-- `save_tasks(tasks)`. -/
def save_tasks (fs : FS) (tasks : JSON) (fault : Bool) : FS × Bool × List String :=
  write_json_file fs TASKS_FILE tasks fault

/-- `load_logs()`. -/
def load_logs (fs : FS) (fault : Bool) : JSON × List String :=
  read_json_file fs BUILD_LOGS_FILE none fault

/-- `save_logs(logs)`. -/
def save_logs (fs : FS) (logs : JSON) (fault : Bool) : FS × Bool × List String :=
  write_json_file fs BUILD_LOGS_FILE logs fault

/-- `load_resources()`. -/
def load_resources (fs : FS) (fault : Bool) : JSON × List String :=
  read_json_file fs RESOURCES_FILE none fault

/-- `save_resources(resources)`. -/
def save_resources (fs : FS) (resources : JSON) (fault : Bool) :
    FS × Bool × List String :=
  write_json_file fs RESOURCES_FILE resources fault

/-- `load_media()`. -/
def load_media (fs : FS) (fault : Bool) : JSON × List String :=
  read_json_file fs MEDIA_ITEMS_FILE none fault

/-- `save_media(media_items)`. -/
def save_media (fs : FS) (media_items : JSON) (fault : Bool) :
    FS × Bool × List String :=
  write_json_file fs MEDIA_ITEMS_FILE media_items fault

/-- `load_sponsors()`. -/
def load_sponsors (fs : FS) (fault : Bool) : JSON × List String :=
  read_json_file fs SPONSORS_FILE none fault

/-- `save_sponsors(sponsors)`. -/
def save_sponsors (fs : FS) (sponsors : JSON) (fault : Bool) :
    FS × Bool × List String :=
  write_json_file fs SPONSORS_FILE sponsors fault

/-- `load_events()`. -/
def load_events (fs : FS) (fault : Bool) : JSON × List String :=
  read_json_file fs EVENTS_FILE none fault

/-- `save_events(events)`. -/
def save_events (fs : FS) (events : JSON) (fault : Bool) :
    FS × Bool × List String :=
  write_json_file fs EVENTS_FILE events fault

/-- `load_messages()`. -/
def load_messages (fs : FS) (fault : Bool) : JSON × List String :=
  read_json_file fs MESSAGES_FILE none fault

/-- `save_messages(messages)`. -/
def save_messages (fs : FS) (messages : JSON) (fault : Bool) :
    FS × Bool × List String :=
  write_json_file fs MESSAGES_FILE messages fault

/-- Streamlit session state as observed by `check_role_access`:
`st.session_state.get("authenticated", False)` and
`st.session_state.get("role", None)`.  `none` models an absent key. -/
structure Session where
  authenticated : Option Bool
  role : Option String

/-- The warning emitted on the unauthenticated path. -/
def loginWarning : String := "You must be logged in to access this page"

/-- The warning emitted on the wrong-role path. -/
def permWarning : String := "You don\x27t have permission to access this page"

/-- `check_role_access(required_roles)`: returns the boolean result together
with the `st.warning` messages emitted.  The required roles set is a list of
role strings; `user_role not in required_roles` with `user_role = None` is
always true, since a Python set of strings never contains `None`. -/
def check_role_access (s : Session) (required_roles : List String) :
    Bool × List String :=
  if !(s.authenticated.getD false) then
    (false, [loginWarning])
  else
    let roleOk := match s.role with
      | some r => required_roles.contains r
      | none => false
    if !roleOk then
      (false, [permWarning])
    else
      (true, [])

/-- First binding of a key in an association list — Python `dict` lookup
(keys coming from `json.load` are distinct, so first = only). -/
def jsonLookup : List (String × JSON) → String → Option JSON
  | [], _ => none
  | (k, v) :: rest, key => if k = key then some v else jsonLookup rest key

/-- Python `value.get(key, default)`: succeeds on a `dict`, raises
`AttributeError` on any other JSON value. -/
def pyGet (v : JSON) (key : String) (d : JSON) : Except String JSON :=
  match v with
  | .obj kvs => .ok ((jsonLookup kvs key).getD d)
  | _ => .error ("AttributeError: " ++ key)

/-- The body of the `for username, user_data in users.items()` loop: build
one team-member dict from one item, or raise if `user_data` has no `.get`
method. -/
def teamMemberRow (now : String) (p : String × JSON) : Except String JSON := do
  let name ← pyGet p.2 "name" (.str "")
  let role ← pyGet p.2 "role" (.str "member")
  let email ← pyGet p.2 "email" (.str "")
  let department ← pyGet p.2 "department" (.str "")
  let created_at ← pyGet p.2 "created_at" (.str now)
  pure (JSON.obj [("username", .str p.1), ("name", name), ("role", role),
    ("email", email), ("department", department), ("created_at", created_at)])

/-- `load_team_members()`.  `now` is the string
`datetime.now().isoformat()` would return at the call.  The body iterates
`users.items()`, which raises `AttributeError` when `read_json_file`
returned a non-dict JSON value, and `user_data.get` raises when an
individual user record is not a dict; uncaught exceptions are the
`Except.error` case. -/
def load_team_members (fs : FS) (now : String) (fault : Bool) :
    Except String (List JSON) :=
  let users := (read_json_file fs USERS_FILE none fault).1
  match users with
  | .obj kvs => kvs.mapM (teamMemberRow now)
  | _ => .error "AttributeError: items"

/-- The member view-record the per-user loop body builds from one
`(username, user_data)` item when `user_data` is a dict, stated via plain
association-list lookup with the documented defaults. -/
def memberView (now : String) (p : String × JSON) : JSON :=
  match p.2 with
  | .obj fields =>
    JSON.obj [("username", .str p.1),
      ("name", (jsonLookup fields "name").getD (.str "")),
      ("role", (jsonLookup fields "role").getD (.str "member")),
      ("email", (jsonLookup fields "email").getD (.str "")),
      ("department", (jsonLookup fields "department").getD (.str "")),
      ("created_at", (jsonLookup fields "created_at").getD (.str now))]
  | _ => .null

/-- The fields of a Python `datetime` that `format_date` can observe
through `strftime("%b %d, %Y")`.  The UTC offset, once validated, does not
affect that output, so it is not stored. -/
structure PyDateTime where
  year : Nat
  month : Nat
  day : Nat
  hour : Nat
  minute : Nat
  second : Nat

/-- Decimal digit test. -/
def isDigitChar (c : Char) : Bool := '0' ≤ c && c ≤ '9'

/-- Read exactly `n` decimal digits, extending the accumulator. -/
def readDigits : Nat → List Char → Nat → Option (Nat × List Char)
  | 0, cs, acc => some (acc, cs)
  | Nat.succ m, c :: rest, acc =>
    if isDigitChar c then readDigits m rest (acc * 10 + (c.toNat - 48))
    else none
  | Nat.succ _, [], _ => none

/-- Consume one expected character. -/
def expectChar (c : Char) : List Char → Option (List Char)
  | d :: rest => if d = c then some rest else none
  | [] => none

/-- Gregorian leap-year rule. -/
def isLeapYear (y : Nat) : Bool := (y % 4 = 0 && y % 100 ≠ 0) || y % 400 = 0

/-- Number of days in a month. -/
def daysInMonth (y m : Nat) : Nat :=
  if m = 2 then (if isLeapYear y then 29 else 28)
  else if m = 4 || m = 6 || m = 9 || m = 11 then 30
  else 31

/-- Optional fractional-second suffix: `.` followed by exactly 3 or 6
digits, as accepted by `datetime.fromisoformat` before Python 3.11. -/
def parseFrac (cs : List Char) : Option (List Char) :=
  match cs with
  | c :: rest =>
    if c = '.' then
      match readDigits 6 rest 0 with
      | some (_, rest2) => some rest2
      | none =>
        match readDigits 3 rest 0 with
        | some (_, rest2) => some rest2
        | none => none
    else some cs
  | [] => some []

/-- Time portion `HH[:MM[:SS[.fff[fff]]]]`; missing components are 0. -/
def parseHMS (cs : List Char) : Option (Nat × Nat × Nat × List Char) := do
  let (h, r1) ← readDigits 2 cs 0
  match r1 with
  | ':' :: r2 =>
    let (mi, r3) ← readDigits 2 r2 0
    match r3 with
    | ':' :: r4 =>
      let (se, r5) ← readDigits 2 r4 0
      let r6 ← parseFrac r5
      pure (h, mi, se, r6)
    | _ => pure (h, mi, 0, r3)
  | _ => pure (h, 0, 0, r1)

/-- UTC-offset suffix `[+-]HH:MM[:SS[.ffffff]]` (or nothing), which must
exhaust the string; the offset must stay under 24 hours in magnitude for
`timezone` to accept it. -/
def parseOffset (cs : List Char) : Option Unit :=
  match cs with
  | [] => some ()
  | c :: rest =>
    if c = '+' || c = '-' then do
      let (oh, r1) ← readDigits 2 rest 0
      let r2 ← expectChar ':' r1
      let (om, r3) ← readDigits 2 r2 0
      match r3 with
      | [] => if oh ≤ 23 && om ≤ 59 then some () else none
      | ':' :: r4 => do
        let (os, r5) ← readDigits 2 r4 0
        let r6 ← parseFrac r5
        if r6 = [] && oh ≤ 23 && om ≤ 59 && os ≤ 59 then some () else none
      | _ => none
    else none

/-- Modelled from the Python standard library (not part of this
repository): `datetime.fromisoformat` as available before Python 3.11 —
`YYYY-MM-DD`, optionally one separator character and a time
`HH[:MM[:SS[.fff[fff]]]]`, optionally a UTC offset; `none` when parsing or
field validation raises `ValueError`. -/
def fromisoformat (s : String) : Option PyDateTime := do
  let cs := s.toList
  let (y, r1) ← readDigits 4 cs 0
  let r2 ← expectChar '-' r1
  let (mo, r3) ← readDigits 2 r2 0
  let r4 ← expectChar '-' r3
  let (d, r5) ← readDigits 2 r4 0
  if 1 ≤ y && 1 ≤ mo && mo ≤ 12 && 1 ≤ d && d ≤ daysInMonth y mo then
    match r5 with
    | [] => pure ⟨y, mo, d, 0, 0, 0⟩
    | _sep :: r6 =>
      let (h, mi, se, r7) ← parseHMS r6
      let _ ← parseOffset r7
      if h ≤ 23 && mi ≤ 59 && se ≤ 59 then pure ⟨y, mo, d, h, mi, se⟩
      else none
  else none

/-- `%b`: abbreviated month name in the C locale. -/
def monthAbbr : Nat → String
  | 1 => "Jan"
  | 2 => "Feb"
  | 3 => "Mar"
  | 4 => "Apr"
  | 5 => "May"
  | 6 => "Jun"
  | 7 => "Jul"
  | 8 => "Aug"
  | 9 => "Sep"
  | 10 => "Oct"
  | 11 => "Nov"
  | 12 => "Dec"
  | _ => ""

/-- `%d`: day zero-padded to two digits. -/
def pad2 (n : Nat) : String := if n < 10 then "0" ++ toString n else toString n

/-- `%Y`: year zero-padded to four digits. -/
def pad4 (n : Nat) : String :=
  if n < 10 then "000" ++ toString n
  else if n < 100 then "00" ++ toString n
  else if n < 1000 then "0" ++ toString n
  else toString n

/-- `strftime("%b %d, %Y")`. -/
def strftime_b_d_Y (d : PyDateTime) : String :=
  monthAbbr d.month ++ " " ++ pad2 d.day ++ ", " ++ pad4 d.year

/-- Modelled from the Python standard library (not part of this
repository): `str.replace("Z", "+00:00")` on the character list — every
occurrence of `Z` becomes `+00:00`. -/
def replaceZchars : List Char → List Char
  | [] => []
  | c :: rest =>
    (if c = 'Z' then String.toList "+00:00" else [c]) ++ replaceZchars rest

/-- `iso_date.replace("Z", "+00:00")` as a `String` function. -/
def replaceZ (s : String) : String := String.mk (replaceZchars s.toList)

/-- `format_date(iso_date)`: replace every `Z` with `+00:00`, parse, format;
on `ValueError` (any parse failure) return the argument unchanged. -/
def format_date (iso_date : String) : String :=
  match fromisoformat (replaceZ iso_date) with
  | some d => strftime_b_d_Y d
  | none => iso_date

/-- What `load_svg` can observe about one file: absent
(`os.path.exists` false), readable with given text, or present but the
open/read raises. -/
inductive TextFile where
  | absent
  | readable (s : String)
  | readFails

/-- The hardcoded fallback returned when the SVG path does not exist. -/
def fallbackNotFoundSvg : String :=
  "<svg width=\"200\" height=\"200\" xmlns=\"http://www.w3.org/2000/svg\">\n            <circle cx=\"100\" cy=\"100\" r=\"90\" fill=\"#f1f1f1\" stroke=\"#0084D8\" stroke-width=\"5\"/>\n            <text x=\"100\" y=\"90\" font-family=\"Arial\" font-size=\"18\" fill=\"#0084D8\" text-anchor=\"middle\">CIRCUIT</text>\n            <text x=\"100\" y=\"115\" font-family=\"Arial\" font-size=\"18\" fill=\"#0084D8\" text-anchor=\"middle\">BREAKERS</text>\n            <path d=\"M80,130 L95,150 L110,130 L125,150\" stroke=\"#C0C0C0\" stroke-width=\"4\" fill=\"none\"/>\n            <path d=\"M60,120 L140,120\" stroke=\"#0084D8\" stroke-width=\"3\" fill=\"none\"/>\n            <path d=\"M70,60 L130,60\" stroke=\"#0084D8\" stroke-width=\"3\" fill=\"none\"/>\n            <path d=\"M90,60 L90,120\" stroke=\"#0084D8\" stroke-width=\"3\" fill=\"none\"/>\n            <path d=\"M110,60 L110,120\" stroke=\"#0084D8\" stroke-width=\"3\" fill=\"none\"/>\n        </svg>"

/-- The hardcoded fallback returned when reading the SVG file raises. -/
def fallbackReadErrorSvg : String :=
  "<svg width=\"150\" height=\"50\" xmlns=\"http://www.w3.org/2000/svg\">\n            <rect width=\"150\" height=\"50\" fill=\"#0084D8\"/>\n            <text x=\"75\" y=\"30\" font-family=\"Arial\" font-size=\"16\" fill=\"white\" text-anchor=\"middle\">Circuit Breakers</text>\n        </svg>"

/-- `load_svg(svg_path)` as a function of the observed state of the file at
that path. -/
def load_svg (f : TextFile) : String :=
  match f with
  | .readable s => s
  | .absent => fallbackNotFoundSvg
  | .readFails => fallbackReadErrorSvg

/-! ## Helper lemmas -/

theorem effectiveDefault_users : effectiveDefault none USERS_FILE = JSON.obj [] := rfl

theorem teamMemberRow_obj (now : String) (p : String × JSON)
    (h : p.2.isObj = true) : teamMemberRow now p = .ok (memberView now p) := by
  obtain ⟨u, d⟩ := p
  cases d <;> simp [JSON.isObj] at h
  rfl

theorem except_ok_bind {α β γ : Type} (a : β) (f : β → Except α γ) :
    (Except.ok a >>= f) = f a := rfl

theorem mapM_loop_teamMemberRow (now : String) :
    ∀ (kvs : List (String × JSON)) (acc : List JSON),
      (∀ p ∈ kvs, p.2.isObj = true) →
      List.mapM.loop (teamMemberRow now) kvs acc =
        Except.ok (acc.reverse ++ List.map (memberView now) kvs)
  | [], acc, _ => by
    show pure acc.reverse = Except.ok (acc.reverse ++ [])
    rw [List.append_nil]
    rfl
  | p :: rest, acc, h => by
    have h1 : teamMemberRow now p = .ok (memberView now p) :=
      teamMemberRow_obj now p (h p (List.mem_cons_self p rest))
    have h2 := mapM_loop_teamMemberRow now rest (memberView now p :: acc)
      (fun q hq => h q (List.mem_cons_of_mem p hq))
    simp [List.mapM.loop, h1, except_ok_bind, h2]

theorem mapM_teamMemberRow (now : String) (kvs : List (String × JSON))
    (h : ∀ p ∈ kvs, p.2.isObj = true) :
    List.mapM (teamMemberRow now) kvs =
      Except.ok (List.map (memberView now) kvs) := by
  simpa [List.mapM] using mapM_loop_teamMemberRow now kvs [] h

theorem read_after_write (fs : FS) (file_path : String) :
    (read_json_file
      ((write_json_file fs file_path
        (read_json_file fs file_path none false).1 false).1) file_path none false).1 =
      (read_json_file fs file_path none false).1 := by
  simp [read_json_file, write_json_file, FS.update]

/-! ## Claim theorems -/

/-- C1 (counterexample): when the users file stores a JSON array, the claim
that `load_team_members` returns normally fails — `users.items()` raises
`AttributeError`, which propagates to the caller. -/
theorem load_team_members_raises_on_array_users :
    load_team_members
      (FS.update (fun _ => FileContent.missing) USERS_FILE
        (FileContent.stored (JSON.arr []) none))
      "2024-01-01T00:00:00" false = Except.error "AttributeError: items" := rfl

/-- C1 (amended): every failure path of the module is absorbed except in
`load_team_members`: it returns normally when the users file is missing,
empty, or unparsable (the substituted default is an empty dict) and when it
stores a JSON object whose values are objects, but it raises when the file
stores a non-dict JSON value such as an array. -/
theorem no_uncaught_exception_amended (fs : FS) (now : String)
    (kvs : List (String × JSON)) (i : Option Nat) :
    (fs USERS_FILE = FileContent.missing →
      load_team_members fs now false = Except.ok []) ∧
    (fs USERS_FILE = FileContent.empty →
      load_team_members fs now false = Except.ok []) ∧
    (fs USERS_FILE = FileContent.invalid →
      load_team_members fs now false = Except.ok []) ∧
    (fs USERS_FILE = FileContent.stored (JSON.obj kvs) i →
      (∀ p ∈ kvs, p.2.isObj = true) →
      ∃ l, load_team_members fs now false = Except.ok l) := by
  refine ⟨?_, ?_, ?_, ?_⟩
  · intro h
    simp [load_team_members, read_json_file, h, effectiveDefault_users]
    rfl
  · intro h
    simp [load_team_members, read_json_file, h, effectiveDefault_users]
    rfl
  · intro h
    simp [load_team_members, read_json_file, h, effectiveDefault_users]
    rfl
  · intro hfile hval
    have hm := mapM_teamMemberRow now kvs hval
    refine ⟨List.map (memberView now) kvs, ?_⟩
    simp only [load_team_members, read_json_file, hfile]
    simpa using hm

/-- C1 witness: the amended theorem applied at concrete states — a missing
users file and a users file holding a one-user dict. -/
theorem no_uncaught_exception_amended_witness :
    load_team_members (fun _ => FileContent.missing) "2024-01-01T00:00:00" false =
      Except.ok [] ∧
    (∃ l, load_team_members
      (FS.update (fun _ => FileContent.missing) USERS_FILE
        (FileContent.stored (JSON.obj [("alice", JSON.obj [])]) none))
      "2024-01-01T00:00:00" false = Except.ok l) :=
  ⟨(no_uncaught_exception_amended (fun _ => FileContent.missing)
      "2024-01-01T00:00:00" [] none).1 rfl,
   (no_uncaught_exception_amended
      (FS.update (fun _ => FileContent.missing) USERS_FILE
        (FileContent.stored (JSON.obj [("alice", JSON.obj [])]) none))
      "2024-01-01T00:00:00" [("alice", JSON.obj [])] none).2.2.2
      rfl (by decide)⟩

/-- C2: for every collection with a load/save pair and every filesystem
state, `save_X(load_X())` followed by `load_X()` returns the same value the
first `load_X()` returned (I/O succeeding on each call). -/
theorem save_load_round_trip (fs : FS) :
    (load_tasks ((save_tasks fs (load_tasks fs false).1 false).1) false).1 =
      (load_tasks fs false).1 ∧
    (load_logs ((save_logs fs (load_logs fs false).1 false).1) false).1 =
      (load_logs fs false).1 ∧
    (load_resources ((save_resources fs (load_resources fs false).1 false).1) false).1 =
      (load_resources fs false).1 ∧
    (load_media ((save_media fs (load_media fs false).1 false).1) false).1 =
      (load_media fs false).1 ∧
    (load_sponsors ((save_sponsors fs (load_sponsors fs false).1 false).1) false).1 =
      (load_sponsors fs false).1 ∧
    (load_events ((save_events fs (load_events fs false).1 false).1) false).1 =
      (load_events fs false).1 ∧
    (load_messages ((save_messages fs (load_messages fs false).1 false).1) false).1 =
      (load_messages fs false).1 :=
  by
  unfold load_tasks save_tasks load_logs save_logs load_resources
    save_resources load_media save_media load_sponsors save_sponsors
    load_events save_events load_messages save_messages
  exact ⟨read_after_write fs TASKS_FILE,
    read_after_write fs BUILD_LOGS_FILE,
    read_after_write fs RESOURCES_FILE,
    read_after_write fs MEDIA_ITEMS_FILE,
    read_after_write fs SPONSORS_FILE,
    read_after_write fs EVENTS_FILE,
    read_after_write fs MESSAGES_FILE⟩

/-- C4: `read_json_file` returns the (effective) default when the file is
missing or has size zero; returns the default after printing an error line
on a parse error or on an I/O fault; and otherwise returns the stored JSON
value. -/
theorem read_json_file_error_handling (fs : FS) (file_path : String)
    (default : Option JSON) (fault : Bool) :
    ((fs file_path = FileContent.missing ∨ fs file_path = FileContent.empty) →
      read_json_file fs file_path default fault =
        (effectiveDefault default file_path, [])) ∧
    (fs file_path = FileContent.invalid →
      read_json_file fs file_path default fault =
        (effectiveDefault default file_path, ["Error reading " ++ file_path])) ∧
    (∀ (v : JSON) (i : Option Nat),
      fs file_path = FileContent.stored v i → fault = true →
      read_json_file fs file_path default fault =
        (effectiveDefault default file_path, ["Error reading " ++ file_path])) ∧
    (∀ (v : JSON) (i : Option Nat),
      fs file_path = FileContent.stored v i → fault = false →
      read_json_file fs file_path default fault = (v, [])) := by
  refine ⟨?_, ?_, ?_, ?_⟩
  · rintro (h | h) <;> simp [read_json_file, h]
  · intro h
    simp [read_json_file, h]
  · intro v i h hf
    subst hf
    simp [read_json_file, h]
  · intro v i h hf
    subst hf
    simp [read_json_file, h]

/-- C4 witness: the theorem applied at a missing file, an unparsable file,
and a stored value, each at the tasks path. -/
theorem read_json_file_error_handling_witness :
    read_json_file (fun _ => FileContent.missing) "data/tasks.json" none false =
      (JSON.arr [], []) ∧
    read_json_file (fun _ => FileContent.invalid) "data/tasks.json" none false =
      (JSON.arr [], ["Error reading data/tasks.json"]) ∧
    read_json_file (fun _ => FileContent.stored (JSON.num 7) none)
      "data/tasks.json" none false = (JSON.num 7, []) :=
  ⟨(read_json_file_error_handling (fun _ => FileContent.missing)
      "data/tasks.json" none false).1 (Or.inl rfl),
   (read_json_file_error_handling (fun _ => FileContent.invalid)
      "data/tasks.json" none false).2.1 rfl,
   (read_json_file_error_handling (fun _ => FileContent.stored (JSON.num 7) none)
      "data/tasks.json" none false).2.2.2 (JSON.num 7) none rfl rfl⟩

/-- C5: when `read_json_file` is called with default `None`, the substituted
default is the empty mapping exactly when the path ends in `settings.json`
or `users.json`, and the empty list for every other path. -/
theorem read_json_file_default_substitution (fs : FS) (file_path : String)
    (fault : Bool) (h : fs file_path = FileContent.missing) :
    read_json_file fs file_path none fault =
      ((if pyEndsWith file_path "settings.json" || pyEndsWith file_path "users.json"
          then JSON.obj [] else JSON.arr []), []) := by
  simp [read_json_file, h, effectiveDefault]

/-- C5 witness: the theorem applied at the users, settings, tasks and an
unrelated path over an empty filesystem. -/
theorem read_json_file_default_substitution_witness :
    read_json_file (fun _ => FileContent.missing) USERS_FILE none false =
      (JSON.obj [], []) ∧
    read_json_file (fun _ => FileContent.missing) SETTINGS_FILE none false =
      (JSON.obj [], []) ∧
    read_json_file (fun _ => FileContent.missing) TASKS_FILE none false =
      (JSON.arr [], []) ∧
    read_json_file (fun _ => FileContent.missing) "data/events.json" none false =
      (JSON.arr [], []) :=
  ⟨read_json_file_default_substitution (fun _ => FileContent.missing)
      USERS_FILE false rfl,
   read_json_file_default_substitution (fun _ => FileContent.missing)
      SETTINGS_FILE false rfl,
   read_json_file_default_substitution (fun _ => FileContent.missing)
      TASKS_FILE false rfl,
   read_json_file_default_substitution (fun _ => FileContent.missing)
      "data/events.json" false rfl⟩

/-- C6: `write_json_file` stores the serialized data with indentation 4,
overwriting whatever the file held before, and returns true; on an I/O
fault it prints an error line, leaves the data unwritten and returns false,
raising nothing. -/
theorem write_json_file_spec (fs : FS) (file_path : String) (data : JSON) :
    write_json_file fs file_path data false =
      (fs.update file_path (FileContent.stored data (some 4)), true, []) ∧
    (write_json_file fs file_path data false).1 file_path =
      FileContent.stored data (some 4) ∧
    read_json_file ((write_json_file fs file_path data false).1) file_path
      none false = (data, []) ∧
    write_json_file fs file_path data true =
      (fs, false, ["Error writing to " ++ file_path]) := by
  refine ⟨rfl, ?_, ?_, rfl⟩
  · simp [write_json_file, FS.update]
  · simp [read_json_file, write_json_file, FS.update]

/-- C3: `check_role_access` returns false with the login warning when the
authenticated flag is unset or false; returns false with the permission
warning when authenticated but the role is not among the required roles;
returns true (no warning) when authenticated and the role is required; and
the three concrete `admin` cases behave as documented. -/
theorem check_role_access_spec (R : List String) :
    (∀ s : Session, s.authenticated.getD false = false →
      check_role_access s R = (false, [loginWarning])) ∧
    (∀ (s : Session) (r : String), s.authenticated.getD false = true →
      s.role = some r → R.contains r = false →
      check_role_access s R = (false, [permWarning])) ∧
    (∀ (s : Session) (r : String), s.authenticated.getD false = true →
      s.role = some r → R.contains r = true →
      check_role_access s R = (true, [])) ∧
    check_role_access ⟨none, none⟩ ["admin"] = (false, [loginWarning]) ∧
    check_role_access ⟨some true, some "member"⟩ ["admin"] =
      (false, [permWarning]) ∧
    check_role_access ⟨some true, some "admin"⟩ ["admin"] = (true, []) := by
  refine ⟨?_, ?_, ?_, rfl, rfl, rfl⟩
  · intro s h
    simp [check_role_access, h]
  · intro s r ha hr hc
    have hm : r ∉ R := by simpa using hc
    simp [check_role_access, ha, hr, hm]
  · intro s r ha hr hc
    have hm : r ∈ R := by simpa using hc
    simp [check_role_access, ha, hr, hm]

/-- C3 witness: the three clauses of the theorem applied at concrete
sessions against the required set consisting of `admin`. -/
theorem check_role_access_spec_witness :
    check_role_access ⟨none, none⟩ ["admin"] = (false, [loginWarning]) ∧
    check_role_access ⟨some true, some "member"⟩ ["admin"] =
      (false, [permWarning]) ∧
    check_role_access ⟨some true, some "admin"⟩ ["admin"] = (true, []) :=
  ⟨(check_role_access_spec ["admin"]).1 ⟨none, none⟩ rfl,
   (check_role_access_spec ["admin"]).2.1 ⟨some true, some "member"⟩
     "member" rfl rfl rfl,
   (check_role_access_spec ["admin"]).2.2.1 ⟨some true, some "admin"⟩
     "admin" rfl rfl rfl⟩

/-- C7: `format_date` turns the example timestamp with a trailing `Z` into
`Jan 05, 2024`, returns a non-date string unchanged, and in general returns
the argument unchanged whenever parsing fails and the `%b %d, %Y` rendering
of the parsed datetime whenever parsing succeeds. -/
theorem format_date_spec :
    format_date "2024-01-05T00:00:00Z" = "Jan 05, 2024" ∧
    format_date "not-a-date" = "not-a-date" ∧
    (∀ s : String, fromisoformat (replaceZ s) = none → format_date s = s) ∧
    (∀ (s : String) (d : PyDateTime), fromisoformat (replaceZ s) = some d →
      format_date s = strftime_b_d_Y d) := by
  refine ⟨rfl, rfl, ?_, ?_⟩
  · intro s h
    simp [format_date, h]
  · intro s d h
    simp [format_date, h]

/-- C7 witness: the failure clause applied at a concrete unparsable string
and the success clause applied at a concrete date-only string. -/
theorem format_date_spec_witness :
    format_date "totally invalid" = "totally invalid" ∧
    format_date "2025-03-07" = strftime_b_d_Y ⟨2025, 3, 7, 0, 0, 0⟩ :=
  ⟨format_date_spec.2.2.1 "totally invalid" rfl,
   format_date_spec.2.2.2 "2025-03-07" ⟨2025, 3, 7, 0, 0, 0⟩ rfl⟩

/-- C8: for a users mapping whose values are records, `load_team_members`
returns one view-record per username in order, and a record with no fields
at all receives every documented default: empty name, role `member`, empty
email, empty department, and `now` as the creation timestamp. -/
theorem load_team_members_view_records (fs : FS) (now : String)
    (kvs : List (String × JSON)) (i : Option Nat)
    (hfile : fs USERS_FILE = FileContent.stored (JSON.obj kvs) i)
    (hval : ∀ p ∈ kvs, p.2.isObj = true) :
    load_team_members fs now false =
      Except.ok (List.map (memberView now) kvs) ∧
    (List.map (memberView now) kvs).length = kvs.length ∧
    (∀ u : String, memberView now (u, JSON.obj []) =
      JSON.obj [("username", JSON.str u), ("name", JSON.str ""),
        ("role", JSON.str "member"), ("email", JSON.str ""),
        ("department", JSON.str ""), ("created_at", JSON.str now)]) := by
  refine ⟨?_, by simp, fun u => rfl⟩
  have hm := mapM_teamMemberRow now kvs hval
  simp only [load_team_members, read_json_file, hfile]
  simpa using hm

/-- C8 witness: the theorem applied at a two-user store — one user with no
fields (all defaults) and one with an explicit role and timestamp. -/
theorem load_team_members_view_records_witness :
    load_team_members
      (FS.update (fun _ => FileContent.missing) USERS_FILE
        (FileContent.stored (JSON.obj
          [("alice", JSON.obj []),
           ("bob", JSON.obj [("role", JSON.str "lead"),
             ("created_at", JSON.str "2023-05-01T10:00:00")])]) none))
      "2024-06-01T00:00:00" false =
      Except.ok (List.map (memberView "2024-06-01T00:00:00")
        [("alice", JSON.obj []),
         ("bob", JSON.obj [("role", JSON.str "lead"),
           ("created_at", JSON.str "2023-05-01T10:00:00")])]) :=
  (load_team_members_view_records
    (FS.update (fun _ => FileContent.missing) USERS_FILE
      (FileContent.stored (JSON.obj
        [("alice", JSON.obj []),
         ("bob", JSON.obj [("role", JSON.str "lead"),
           ("created_at", JSON.str "2023-05-01T10:00:00")])]) none))
    "2024-06-01T00:00:00"
    [("alice", JSON.obj []),
     ("bob", JSON.obj [("role", JSON.str "lead"),
       ("created_at", JSON.str "2023-05-01T10:00:00")])] none
    rfl (by decide)).1

set_option maxRecDepth 8192 in
/-- C9: `load_svg` returns the file text when the path exists and is
readable, the hardcoded not-found fallback (which contains the text
`CIRCUIT`) when the path does not exist, and the simpler read-error
fallback when reading raises; being a total function it never raises. -/
theorem load_svg_spec :
    (∀ s : String, load_svg (.readable s) = s) ∧
    load_svg .absent = fallbackNotFoundSvg ∧
    load_svg .readFails = fallbackReadErrorSvg ∧
    (∃ a b : String, fallbackNotFoundSvg = a ++ "CIRCUIT" ++ b) := by
  refine ⟨fun s => rfl, rfl, rfl,
    ⟨"<svg width=\"200\" height=\"200\" xmlns=\"http://www.w3.org/2000/svg\">\n            <circle cx=\"100\" cy=\"100\" r=\"90\" fill=\"#f1f1f1\" stroke=\"#0084D8\" stroke-width=\"5\"/>\n            <text x=\"100\" y=\"90\" font-family=\"Arial\" font-size=\"18\" fill=\"#0084D8\" text-anchor=\"middle\">",
     "</text>\n            <text x=\"100\" y=\"115\" font-family=\"Arial\" font-size=\"18\" fill=\"#0084D8\" text-anchor=\"middle\">BREAKERS</text>\n            <path d=\"M80,130 L95,150 L110,130 L125,150\" stroke=\"#C0C0C0\" stroke-width=\"4\" fill=\"none\"/>\n            <path d=\"M60,120 L140,120\" stroke=\"#0084D8\" stroke-width=\"3\" fill=\"none\"/>\n            <path d=\"M70,60 L130,60\" stroke=\"#0084D8\" stroke-width=\"3\" fill=\"none\"/>\n            <path d=\"M90,60 L90,120\" stroke=\"#0084D8\" stroke-width=\"3\" fill=\"none\"/>\n            <path d=\"M110,60 L110,120\" stroke=\"#0084D8\" stroke-width=\"3\" fill=\"none\"/>\n        </svg>",
     ?_⟩⟩
  rfl

/-- C10: with an empty set of required roles `check_role_access` returns
false for every session state — even authenticated sessions with any role —
since no role is a member of the empty set. -/
theorem check_role_access_empty_required (s : Session) :
    (check_role_access s []).1 = false := by
  cases ha : s.authenticated.getD false <;> cases hr : s.role <;>
    simp [check_role_access, ha, hr]

end CircuitUtil
